import Mathlib

/-!
# Verification of the Paytato shopping-agent reconciliation core

This development shallowly embeds the cart-extraction and plan-to-cart
reconciliation pipeline of the shopping agent (`agent/types.py`,
`agent/validator.py`, `agent/shopper.py`, `agent/paytato.py`,
`agent/main.py`) and proves or refutes the specification's claims about it.

Conventions of the embedding:
* Python `int` is `Int`; Python `float` arithmetic inside the validator is
  modelled by exact `Rat` arithmetic, with the `"\x7b:.0f\x7d"` format
  modelled as round-half-to-even (CPython's rounding mode for `round` and
  for `format`), applied to the exact rational value.
* JSON values decoded from an LLM response are the inductive `Jv`;
  fallible Python code (attribute errors, type errors, division by zero,
  pydantic validation) is modelled in `Except String`.
* `hashlib.sha256(...).hexdigest()` is embedded as an executable SHA-256
  over UTF-8 byte lists (`sha256HexString`), validated below against the
  published FIPS 180-4 test vectors.
* `json.dumps(..., sort_keys=True)` is embedded as the explicit
  key-sorted rendering `canonicalCartString`, including CPython's
  `ensure_ascii` escaping.
-/

/-! ## Decimal rendering of integers (CPython `str`/format of an `int`) -/

/-- Structural helper: decimal digits of `n`, most significant first.
The fuel argument dominates `n`, so the recursion is structural. -/
def natDecCharsAux : Nat → Nat → List Char
  | 0, _ => []
  | fuel + 1, n =>
    if n < 10 then [Nat.digitChar n]
    else natDecCharsAux fuel (n / 10) ++ [Nat.digitChar (n % 10)]

/-- Decimal digit string of a natural number. -/
def natDecChars (n : Nat) : List Char := natDecCharsAux (n + 1) n

/-- Decimal rendering of an integer, as CPython renders an `int`. -/
def intDecString (i : Int) : String :=
  if i < 0 then "-" ++ (⟨natDecChars (-i).toNat⟩ : String) else (⟨natDecChars i.toNat⟩ : String)

/-! ## Python string primitives used by the embedded code -/

/-- ASCII whitespace recognized by `str.strip`. -/
def wsChar (c : Char) : Bool :=
  c = ' ' || c = '\t' || c = '\n' || c = '\x0d' || c = '\x0b' || c = '\x0c'

/-- `str.strip()`: drop leading and trailing whitespace. -/
def pyStrip (s : String) : String :=
  ⟨((s.data.dropWhile wsChar).reverse.dropWhile wsChar).reverse⟩

/-- `str.startswith(pat)`. -/
def pyStartswith (s pat : String) : Bool := pat.data.isPrefixOf s.data

/-- Structural engine of `str.replace` for a non-empty pattern: scan left to
right, replacing each non-overlapping occurrence. -/
def replaceChars : Nat → List Char → List Char → List Char → List Char
  | 0, s, _, _ => s
  | fuel + 1, s, old, new =>
    match s with
    | [] => []
    | c :: rest =>
      if old.isPrefixOf s then new ++ replaceChars fuel (s.drop old.length) old new
      else c :: replaceChars fuel rest old new

/-- `str.replace(old, new)` (all occurrences). -/
def pyReplace (s old new : String) : String :=
  ⟨replaceChars s.data.length s.data old.data new.data⟩

/-- Python's `pat in s` substring test. -/
def containsSub (s pat : List Char) : Bool :=
  (List.range (s.length + 1)).any fun i => (s.drop i).take pat.length == pat

/-- `pat in s` on strings. -/
def strContains (s pat : String) : Bool := containsSub s.data pat.data

/-! ## SHA-256 (`hashlib.sha256`), over byte lists, 32-bit words as `Nat % 2^32` -/

/-- Truncate to a 32-bit word. -/
def w32 (n : Nat) : Nat := n % 4294967296

/-- 32-bit modular addition. -/
def add32 (a b : Nat) : Nat := (a + b) % 4294967296

/-- Right-rotation of a 32-bit word by `k`. -/
def rotr32 (k x : Nat) : Nat :=
  w32 ((x >>> k) + ((x % (1 <<< k)) <<< (32 - k)))

/-- Bitwise complement of a 32-bit word. -/
def not32 (x : Nat) : Nat := x ^^^ 4294967295

/-- SHA-256 `Ch` function. -/
def shaCh (x y z : Nat) : Nat := (x &&& y) ^^^ (not32 x &&& z)

/-- SHA-256 `Maj` function. -/
def shaMaj (x y z : Nat) : Nat := ((x &&& y) ^^^ (x &&& z)) ^^^ (y &&& z)

/-- SHA-256 Σ₀. -/
def bigSigma0 (x : Nat) : Nat := rotr32 2 x ^^^ rotr32 13 x ^^^ rotr32 22 x

/-- SHA-256 Σ₁. -/
def bigSigma1 (x : Nat) : Nat := rotr32 6 x ^^^ rotr32 11 x ^^^ rotr32 25 x

/-- SHA-256 σ₀. -/
def smallSigma0 (x : Nat) : Nat := rotr32 7 x ^^^ rotr32 18 x ^^^ (x >>> 3)

/-- SHA-256 σ₁. -/
def smallSigma1 (x : Nat) : Nat := rotr32 17 x ^^^ rotr32 19 x ^^^ (x >>> 10)

/-- The 64 SHA-256 round constants (FIPS 180-4 §4.2.2). -/
def shaK : List Nat :=
  [1116352408, 1899447441, 3049323471, 3921009573, 961987163,
   1508970993, 2453635748, 2870763221, 3624381080, 310598401,
   607225278, 1426881987, 1925078388, 2162078206, 2614888103,
   3248222580, 3835390401, 4022224774, 264347078, 604807628,
   770255983, 1249150122, 1555081692, 1996064986, 2554220882,
   2821834349, 2952996808, 3210313671, 3336571891, 3584528711,
   113926993, 338241895, 666307205, 773529912, 1294757372,
   1396182291, 1695183700, 1986661051, 2177026350, 2456956037,
   2730485921, 2820302411, 3259730800, 3345764771, 3516065817,
   3600352804, 4094571909, 275423344, 430227734, 506948616,
   659060556, 883997877, 958139571, 1322822218, 1537002063,
   1747873779, 1955562222, 2024104815, 2227730452, 2361852424,
   2428436474, 2756734187, 3204031479, 3329325298]

/-- Eight 32-bit working registers of the SHA-256 state. -/
structure Hash8 where
  a : Nat
  b : Nat
  c : Nat
  d : Nat
  e : Nat
  f : Nat
  g : Nat
  h : Nat

/-- The SHA-256 initial hash value (FIPS 180-4 §5.3.3). -/
def shaInit : Hash8 :=
  ⟨1779033703, 3144134277, 1013904242, 2773480762,
   1359893119, 2600822924, 528734635, 1541459225⟩

/-- Big-endian byte rendering of `n` on exactly `k` bytes. -/
def bytesBE : Nat → Nat → List Nat
  | 0, _ => []
  | k + 1, n => bytesBE k (n / 256) ++ [n % 256]

/-- The 16 big-endian 32-bit words of one 64-byte block. -/
def wordsOfBlock (block : List Nat) : List Nat :=
  (List.range 16).map fun i =>
    (block.getD (4 * i) 0) * 16777216 + (block.getD (4 * i + 1) 0) * 65536 +
      (block.getD (4 * i + 2) 0) * 256 + block.getD (4 * i + 3) 0

/-- Extend the 16 block words to the 64-entry message schedule. -/
def extendSchedule (ws : Array Nat) : Array Nat :=
  (List.range 48).foldl
    (fun arr j =>
      let i := j + 16
      arr.push (add32 (add32 (smallSigma1 (arr.getD (i - 2) 0)) (arr.getD (i - 7) 0))
        (add32 (smallSigma0 (arr.getD (i - 15) 0)) (arr.getD (i - 16) 0))))
    ws

/-- One SHA-256 compression round. -/
def roundStep (st : Hash8) (wi ki : Nat) : Hash8 :=
  let t1 := add32 st.h (add32 (bigSigma1 st.e) (add32 (shaCh st.e st.f st.g) (add32 ki wi)))
  let t2 := add32 (bigSigma0 st.a) (shaMaj st.a st.b st.c)
  ⟨add32 t1 t2, st.a, st.b, st.c, add32 st.d t1, st.e, st.f, st.g⟩

/-- Compress one 64-byte block into the running hash state. -/
def compressBlock (h0 : Hash8) (block : List Nat) : Hash8 :=
  let w := extendSchedule (wordsOfBlock block).toArray
  let s := (List.range 64).foldl (fun st i => roundStep st (w.getD i 0) (shaK.getD i 0)) h0
  ⟨add32 h0.a s.a, add32 h0.b s.b, add32 h0.c s.c, add32 h0.d s.d,
   add32 h0.e s.e, add32 h0.f s.f, add32 h0.g s.g, add32 h0.h s.h⟩

/-- SHA-256 padding: `0x80`, zeros to 56 mod 64, then the 64-bit bit length. -/
def shaPad (msg : List Nat) : List Nat :=
  let len := msg.length
  let zeros := (64 + 55 - len % 64) % 64
  msg ++ [128] ++ List.replicate zeros 0 ++ bytesBE 8 (len * 8)

/-- Structural engine of `chunks64`; the fuel dominates the block count. -/
def chunks64Aux : Nat → List Nat → List (List Nat)
  | 0, _ => []
  | fuel + 1, l => if l = [] then [] else l.take 64 :: chunks64Aux fuel (l.drop 64)

/-- Split a byte list into 64-byte blocks. -/
def chunks64 (l : List Nat) : List (List Nat) := chunks64Aux l.length l

/-- The 32-byte SHA-256 digest of a byte list. -/
def sha256Bytes (msg : List Nat) : List Nat :=
  let final := (chunks64 (shaPad msg)).foldl compressBlock shaInit
  bytesBE 4 final.a ++ bytesBE 4 final.b ++ bytesBE 4 final.c ++ bytesBE 4 final.d ++
    bytesBE 4 final.e ++ bytesBE 4 final.f ++ bytesBE 4 final.g ++ bytesBE 4 final.h

/-- Lowercase hexadecimal digit characters, in value order. -/
def hexDigitChars : List Char := "0123456789abcdef".data

/-- The lowercase hex character of a nibble. -/
def hexCharOf (n : Nat) : Char := hexDigitChars.getD n '0'

/-- Lowercase-hex rendering of a byte list (`.hexdigest()`). -/
def hexOfBytes (bs : List Nat) : String :=
  ⟨bs.flatMap fun b => [hexCharOf (b / 16), hexCharOf (b % 16)]⟩

/-- UTF-8 bytes of one character. -/
def charUtf8 (c : Char) : List Nat :=
  let n := c.toNat
  if n < 128 then [n]
  else if n < 2048 then [192 + n / 64, 128 + n % 64]
  else if n < 65536 then [224 + n / 4096, 128 + n / 64 % 64, 128 + n % 64]
  else [240 + n / 262144, 128 + n / 4096 % 64, 128 + n / 64 % 64, 128 + n % 64]

/-- UTF-8 bytes of a string (`str.encode()`). -/
def strUtf8 (s : String) : List Nat := s.data.flatMap charUtf8

/-- `hashlib.sha256(s.encode()).hexdigest()`. -/
def sha256HexString (s : String) : String := hexOfBytes (sha256Bytes (strUtf8 s))

/-! Validation of the SHA-256 embedding against FIPS 180-4 / RFC 6234 test
vectors (one-block and multi-block). -/

set_option maxRecDepth 100000

theorem sha256_vector_empty :
    sha256HexString "" = "e3b0c44298fc1c149afbf4c8996fb92427ae41e4649b934ca495991b7852b855" := by
  decide

theorem sha256_vector_abc :
    sha256HexString "abc" = "ba7816bf8f01cfea414140de5dae2223b00361a396177a9cb410ff61f20015ad" := by
  decide

theorem sha256_vector_two_blocks :
    sha256HexString "abcdbcdecdefdefgefghfghighijhijkijkljklmklmnlmnomnopnopq" =
      "248d6a61d20638b8e5c026930c3e6039a33ce45964ff2167f6ecedd419db06c1" := by
  decide

/-! ## Data model (`agent/types.py`) -/

/-- The currency literal type `Literal["USD", "EUR", "GBP"]`. -/
inductive Currency
  | USD
  | EUR
  | GBP
deriving DecidableEq, Repr

/-- `ShoppingItem`: one requested product line of the plan. -/
structure ShoppingItem where
  id : String
  description : String
  quantity : Int := 1
  max_price_cents : Option Int := none
  preferred_merchants : List String := []
  substitution_allowed : Bool := true
  substitution_rules : Option String := none
  size : Option String := none
  color : Option String := none
  attributes : List (String × String) := []
deriving DecidableEq, Repr

/-- `Budget`: budget constraints for shopping. -/
structure Budget where
  max_total_cents : Option Int := none
  max_per_item_cents : Option Int := none
  currency : Currency := Currency.USD
deriving DecidableEq, Repr

/-- `Budget.effective_max_total_cents`: `max_total_cents` if set, else 100000. -/
def Budget.effective_max_total_cents (b : Budget) : Int :=
  match b.max_total_cents with
  | some m => m
  | none => 100000

/-- `MerchantRules`: merchant allowlist/blocklist. -/
structure MerchantRules where
  allowlist : List String := []
  blocklist : List String := []
deriving DecidableEq, Repr

/-- `DeliveryPreferences`. -/
structure DeliveryPreferences where
  deadline : Option String := none
  address_id : Option String := none
  notes : Option String := none
deriving DecidableEq, Repr

/-- `ApprovalRules`. -/
structure ApprovalRules where
  auto_approve_under_cents : Int := 0
  require_email_approval : Bool := true
  notify_on_substitution : Bool := true
deriving DecidableEq, Repr

/-- `ShoppingPlan`: the aggregate shopping intent. -/
structure ShoppingPlan where
  plan_id : String
  user_id : String := "demo-user"
  created_at : String := ""
  items : List ShoppingItem
  budget : Budget
  merchants : MerchantRules := {}
  delivery : DeliveryPreferences := {}
  approval_rules : ApprovalRules := {}
  flags : List String := []
deriving DecidableEq, Repr

/-- `CartItem`: one line actually placed in the cart. -/
structure CartItem where
  item_id : String := ""
  plan_item_id : Option String := none
  title : String
  url : String
  image_url : Option String := none
  price_cents : Int
  quantity : Int := 1
  seller : Option String := none
  is_substitution : Bool := false
  substitution_reason : Option String := none
  attributes : List (String × String) := []
deriving DecidableEq, Repr

/-- `CartTotals`: the cart totals breakdown. -/
structure CartTotals where
  subtotal_cents : Int
  tax_cents : Option Int := none
  shipping_cents : Option Int := none
  total_cents : Int
  currency : Currency := Currency.USD
deriving DecidableEq, Repr

/-- `Address` (billing address inside a payment method). -/
structure Address where
  street : Option String := none
  city : Option String := none
  state : Option String := none
  zip : Option String := none
  country : Option String := none
deriving DecidableEq, Repr

/-- `ContactInfo`. -/
structure ContactInfo where
  firstName : Option String := none
  lastName : Option String := none
  address : Option String := none
  city : Option String := none
  zipCode : Option String := none
deriving DecidableEq, Repr

/-- `PaymentMethod`: plaintext payment credentials. -/
structure PaymentMethod where
  pan : String
  exp_month : String
  exp_year : String
  cvv : String
  cardholder_name : String
  billing_zip : Option String := none
  billingAddress : Option Address := none
  email : Option String := none
  phone : Option String := none
  contactInfo : Option ContactInfo := none
deriving DecidableEq, Repr

/-- `PaymentResult`. -/
structure PaymentResult where
  success : Bool
  confirmation_number : Option String := none
  receipt_url : Option String := none
  error_message : Option String := none
  charged_amount_cents : Option Int := none
deriving DecidableEq, Repr

/-- `BrowserProfile`. -/
structure BrowserProfile where
  user_data_dir : Option String := none
  profile_name : Option String := none
  executable_path : Option String := none
  cdp_url : Option String := none
deriving DecidableEq, Repr

/-- `CartJson`: complete cart state ready for checkout. -/
structure CartJson where
  cart_id : String := ""
  plan_id : String
  merchant_origin : String
  checkout_url : String
  items : List CartItem
  totals : CartTotals
  cart_fingerprint_sha256 : String := ""
  created_at : String := ""
  expires_at : String := ""
  browser_profile : Option BrowserProfile := none
  payment_method : Option PaymentMethod := none
  payment_result : Option PaymentResult := none
deriving DecidableEq, Repr

/-! ## Fingerprint engine (`CartJson.compute_fingerprint`) -/

/-- Four lowercase hex digits (CPython's `\\uXXXX` escape body). -/
def hex4 (n : Nat) : String :=
  ⟨[hexCharOf (n / 4096 % 16), hexCharOf (n / 256 % 16), hexCharOf (n / 16 % 16), hexCharOf (n % 16)]⟩

/-- CPython `json` escaping of one character with `ensure_ascii=True`:
printable ASCII other than quote and backslash is literal, short escapes for
the usual control characters, `\\uXXXX` (with surrogate pairs beyond the
BMP) for everything else. -/
def jsonEscChar (c : Char) : String :=
  if c = '"' then "\\\""
  else if c = '\\' then "\\\\"
  else if c = '\n' then "\\n"
  else if c = '\r' then "\\r"
  else if c = '\t' then "\\t"
  else if c.toNat = 8 then "\\b"
  else if c.toNat = 12 then "\\f"
  else if 32 ≤ c.toNat ∧ c.toNat ≤ 126 then String.singleton c
  else if c.toNat < 65536 then "\\u" ++ hex4 c.toNat
  else
    let m := c.toNat - 65536
    "\\u" ++ hex4 (55296 + m / 1024) ++ "\\u" ++ hex4 (56320 + m % 1024)

/-- A JSON string literal as `json.dumps` renders it. -/
def jsonQuote (s : String) : String :=
  "\"" ++ String.join (s.data.map jsonEscChar) ++ "\""

/-- The `(title, price_cents, quantity)` triple the fingerprint hashes. -/
def cartItemTriple (it : CartItem) : String × Int × Int :=
  (it.title, it.price_cents, it.quantity)

/-- Key-sorted JSON rendering of one fingerprint item record
(`price_cents` < `quantity` < `title` lexicographically). -/
def itemCanonical (t : String × Int × Int) : String :=
  "\x7b\"price_cents\": " ++ intDecString t.2.1 ++ ", \"quantity\": " ++ intDecString t.2.2 ++
    ", \"title\": " ++ jsonQuote t.1 ++ "\x7d"

/-- The canonical encoding hashed by `compute_fingerprint`:
`json.dumps` with `sort_keys=True` of the mapping holding `merchant_origin`,
the item `(title, price_cents, quantity)` records and `totals.total_cents`
(keys sorted: `items` < `merchant_origin` < `total_cents`). -/
def canonicalCartString (c : CartJson) : String :=
  "\x7b\"items\": [" ++
    String.intercalate ", " ((c.items.map cartItemTriple).map itemCanonical) ++
    "], \"merchant_origin\": " ++ jsonQuote c.merchant_origin ++
    ", \"total_cents\": " ++ intDecString c.totals.total_cents ++ "\x7d"

/-- `CartJson.compute_fingerprint`: computes the digest, stores it in
`cart_fingerprint_sha256` and returns it. Embedded as a state transformer
returning the updated cart together with the returned digest. -/
def computeFingerprint (c : CartJson) : CartJson × String :=
  let d := sha256HexString (canonicalCartString c)
  ({ c with cart_fingerprint_sha256 := d }, d)

/-! ## Fingerprint properties -/

theorem canonicalCartString_congr (a b : CartJson)
    (hmo : a.merchant_origin = b.merchant_origin)
    (hit : a.items.map cartItemTriple = b.items.map cartItemTriple)
    (htc : a.totals.total_cents = b.totals.total_cents) :
    canonicalCartString a = canonicalCartString b := by
  simp only [canonicalCartString, hmo, hit, htc]

theorem hexCharOf_mem (n : Nat) : hexCharOf n ∈ hexDigitChars := by
  by_cases h : n < 16
  · interval_cases n <;> decide
  · unfold hexCharOf
    rw [List.getD_eq_default]
    · decide
    · simp [hexDigitChars]
      omega

theorem hexOfBytes_chars (bs : List Nat) :
    ∀ ch ∈ (hexOfBytes bs).data, ch ∈ hexDigitChars := by
  intro ch hch
  simp only [hexOfBytes, List.mem_flatMap] at hch
  obtain ⟨b, -, hmem⟩ := hch
  simp only [List.mem_cons, List.not_mem_nil, or_false] at hmem
  rcases hmem with h | h
  · exact h ▸ hexCharOf_mem _
  · exact h ▸ hexCharOf_mem _

theorem hexFlat_length (bs : List Nat) :
    (bs.flatMap fun b => [hexCharOf (b / 16), hexCharOf (b % 16)]).length = 2 * bs.length := by
  induction bs with
  | nil => rfl
  | cons b rest ih =>
    rw [List.flatMap_cons, List.length_append, ih]
    simp
    omega

theorem hexOfBytes_length (bs : List Nat) :
    (hexOfBytes bs).length = 2 * bs.length := hexFlat_length bs

theorem bytesBE_length (k n : Nat) : (bytesBE k n).length = k := by
  induction k generalizing n with
  | zero => rfl
  | succ k ih => simp [bytesBE, ih]

theorem sha256Bytes_length (msg : List Nat) : (sha256Bytes msg).length = 32 := by
  simp [sha256Bytes, bytesBE_length]

theorem sha256HexString_length (s : String) : (sha256HexString s).length = 64 := by
  simp [sha256HexString, hexOfBytes_length, sha256Bytes_length]

/-- C1: for any two `CartJson` values with identical `merchant_origin`,
identical ordered `(title, price_cents, quantity)` triples and identical
`totals.total_cents`, `compute_fingerprint` returns the same result — the
lowercase hex SHA-256 digest of the canonical key-sorted JSON encoding of
exactly those fields — whatever the other fields hold. -/
theorem fingerprint_deterministic_sha256 (a b : CartJson)
    (hmo : a.merchant_origin = b.merchant_origin)
    (hit : a.items.map cartItemTriple = b.items.map cartItemTriple)
    (htc : a.totals.total_cents = b.totals.total_cents) :
    (computeFingerprint a).2 = (computeFingerprint b).2 ∧
    (computeFingerprint a).2 = sha256HexString (canonicalCartString a) ∧
    (computeFingerprint a).2.length = 64 ∧
    ∀ ch ∈ (computeFingerprint a).2.data, ch ∈ hexDigitChars := by
  refine ⟨?_, rfl, ?_, ?_⟩
  · show sha256HexString (canonicalCartString a) = sha256HexString (canonicalCartString b)
    rw [canonicalCartString_congr a b hmo hit htc]
  · exact sha256HexString_length _
  · exact hexOfBytes_chars _

/-- Witness cart for fingerprint determinism. -/
def fpWitnessCartA : CartJson :=
  { cart_id := "cart-1", plan_id := "plan-1",
    merchant_origin := "https://joy-buy-test.lovable.app", checkout_url := "https://x/cart",
    items := [{ title := "USB-C Hub", url := "https://x/p1", price_cents := 2999, quantity := 2 }],
    totals := { subtotal_cents := 5998, tax_cents := some 500, shipping_cents := some 0,
                total_cents := 6498, currency := Currency.USD },
    created_at := "2026-01-01T00:00:00", expires_at := "2026-01-01T01:00:00" }

/-- Same fingerprint-relevant content as `fpWitnessCartA`, every excluded
field different. -/
def fpWitnessCartB : CartJson :=
  { cart_id := "cart-2", plan_id := "plan-2",
    merchant_origin := "https://joy-buy-test.lovable.app", checkout_url := "https://y/cart",
    items := [{ item_id := "i-9", plan_item_id := some "p-9", title := "USB-C Hub",
                url := "https://y/p1", price_cents := 2999, quantity := 2,
                is_substitution := true }],
    totals := { subtotal_cents := 1, tax_cents := none, shipping_cents := some 999,
                total_cents := 6498, currency := Currency.EUR },
    created_at := "2027-12-31T23:59:59", expires_at := "2028-01-01T00:59:59" }

theorem fingerprint_deterministic_sha256_witness :
    (computeFingerprint fpWitnessCartA).2 = (computeFingerprint fpWitnessCartB).2 :=
  (fingerprint_deterministic_sha256 fpWitnessCartA fpWitnessCartB rfl rfl rfl).1

/-- C10: `compute_fingerprint` is not observation-only — it writes the digest
into `cart_fingerprint_sha256` and returns that same value, leaving every
other field of the cart unchanged. -/
theorem compute_fingerprint_frame (c : CartJson) :
    (computeFingerprint c).1.cart_fingerprint_sha256 = (computeFingerprint c).2 ∧
    (computeFingerprint c).2 = sha256HexString (canonicalCartString c) ∧
    (computeFingerprint c).1 =
      { c with cart_fingerprint_sha256 := sha256HexString (canonicalCartString c) } ∧
    (computeFingerprint c).1.cart_id = c.cart_id ∧
    (computeFingerprint c).1.plan_id = c.plan_id ∧
    (computeFingerprint c).1.merchant_origin = c.merchant_origin ∧
    (computeFingerprint c).1.checkout_url = c.checkout_url ∧
    (computeFingerprint c).1.items = c.items ∧
    (computeFingerprint c).1.totals = c.totals ∧
    (computeFingerprint c).1.created_at = c.created_at ∧
    (computeFingerprint c).1.expires_at = c.expires_at ∧
    (computeFingerprint c).1.browser_profile = c.browser_profile ∧
    (computeFingerprint c).1.payment_method = c.payment_method ∧
    (computeFingerprint c).1.payment_result = c.payment_result := by
  have h : computeFingerprint c =
      ({ c with cart_fingerprint_sha256 := sha256HexString (canonicalCartString c) },
        sha256HexString (canonicalCartString c)) := rfl
  rw [h]
  exact ⟨rfl, rfl, rfl, rfl, rfl, rfl, rfl, rfl, rfl, rfl, rfl, rfl, rfl, rfl⟩

/-! ## Deterministic validator (`agent/validator.py`, `quick_validate`) -/

/-- The three-way validation decision. -/
inductive Decision
  | ALLOW
  | ALLOW_WITH_FLAGS
  | REJECT
deriving DecidableEq, Repr

/-- `ValidationResult`. -/
structure ValidationResult where
  decision : Decision
  flags : List String
  reasoning : Option String := none
deriving DecidableEq, Repr

/-- Round half to even (CPython's rounding of `round` and of float
formatting), applied to the exact rational value. -/
def roundHalfEven (q : Rat) : Int :=
  let f : Int := ⌊q⌋
  let r : Rat := q - (f : Rat)
  if r < 1/2 then f
  else if (1 : Rat)/2 < r then f + 1
  else if f % 2 = 0 then f else f + 1

/-- `f"\x7bx:.0f\x7d"` of the exact value: round half to even, with
CPython's negative-zero display for a negative value that rounds to 0. -/
def formatDotZeroF (q : Rat) : String :=
  let p := roundHalfEven q
  if q < 0 ∧ p = 0 then "-0" else intDecString p

/-- The exact value of `(total - max_budget) / max_budget * 100`. -/
def overPercentQ (total maxB : Int) : Rat :=
  ((total - maxB : Int) : Rat) / ((maxB : Int) : Rat) * 100

/-- The flag `f"over_budget_by_\x7bover_percent:.0f\x7d_percent"`. -/
def overBudgetFlag (q : Rat) : String :=
  "over_budget_by_" ++ formatDotZeroF q ++ "_percent"

/-- The item-count flags of `quick_validate` (lines 141–145). -/
def countFlags (plan : ShoppingPlan) (cart : CartJson) : List String :=
  if cart.items.length ≠ plan.items.length then
    if cart.items.length < plan.items.length then ["item_missing"] else ["unexpected_item"]
  else []

/-- The flag accumulation of `quick_validate` (lines 128–145): the budget
check runs first and divides by the effective max, so a zero effective max
with an over-budget total raises `ZeroDivisionError`. -/
def quickFlags (plan : ShoppingPlan) (cart : CartJson) : Except String (List String) :=
  let maxB := plan.budget.effective_max_total_cents
  if cart.totals.total_cents > maxB then
    if maxB = 0 then .error "ZeroDivisionError"
    else .ok (overBudgetFlag (overPercentQ cart.totals.total_cents maxB) :: countFlags plan cart)
  else .ok (countFlags plan cart)

/-- `cart.merchant_origin.replace("https://", "").replace("http://", "")`. -/
def merchantDomain (cart : CartJson) : String :=
  pyReplace (pyReplace cart.merchant_origin "https://" "") "http://" ""

/-- `critical_flags` of `quick_validate`. -/
def criticalFlags : List String := ["over_budget_by_50_percent", "item_missing"]

/-- `has_critical`: some accumulated flag has some critical flag as a
substring (Python's `critical in flag`). -/
def hasCritical (flags : List String) : Bool :=
  flags.any fun flag => criticalFlags.any fun critical => strContains flag critical

/-- Lines 147–181 of `quick_validate`: the decision ladder run on the
accumulated flags (blocklist check, clean allow, critical-flag reject,
flagged allow). -/
def validateWithFlags (plan : ShoppingPlan) (cart : CartJson) (flags : List String) :
    ValidationResult :=
  if merchantDomain cart ∈ plan.merchants.blocklist then
    { decision := Decision.REJECT, flags := ["merchant_blocked"],
      reasoning := some ("Merchant " ++ merchantDomain cart ++ " is in blocklist") }
  else if flags = [] then
    { decision := Decision.ALLOW, flags := [],
      reasoning := some "Cart matches plan within constraints" }
  else if hasCritical flags then
    { decision := Decision.REJECT, flags := flags,
      reasoning := some "Critical validation issues found" }
  else
    { decision := Decision.ALLOW_WITH_FLAGS, flags := flags,
      reasoning := some "Minor issues found but acceptable for approval" }

/-- `quick_validate`: deterministic validation of a cart against a plan —
flag accumulation (which can raise `ZeroDivisionError`) followed by the
decision ladder. -/
def quickValidate (plan : ShoppingPlan) (cart : CartJson) : Except String ValidationResult := do
  let flags ← quickFlags plan cart
  return validateWithFlags plan cart flags

/-! ## String lemmas about validator flags -/

/-- The ten decimal digit characters. -/
def decDigitChars : List Char := "0123456789".data

theorem digitChar_mem_of_lt (n : Nat) (h : n < 10) : Nat.digitChar n ∈ decDigitChars := by
  interval_cases n <;> decide

theorem natDecCharsAux_chars (fuel n : Nat) :
    ∀ c ∈ natDecCharsAux fuel n, c ∈ decDigitChars := by
  induction fuel generalizing n with
  | zero => intro c hc; simp [natDecCharsAux] at hc
  | succ fuel ih =>
    intro c hc
    simp only [natDecCharsAux] at hc
    split at hc
    · simp at hc
      exact hc ▸ digitChar_mem_of_lt n (by omega)
    · rcases List.mem_append.mp hc with h | h
      · exact ih _ c h
      · simp at h
        exact h ▸ digitChar_mem_of_lt _ (Nat.mod_lt n (by omega))

theorem formatDotZeroF_chars (q : Rat) :
    ∀ c ∈ (formatDotZeroF q).data, c = '-' ∨ c ∈ decDigitChars := by
  intro c hc
  have hd : formatDotZeroF q =
      if q < 0 ∧ roundHalfEven q = 0 then "-0" else intDecString (roundHalfEven q) := rfl
  rw [hd] at hc
  split at hc
  · have hcc : c = '-' ∨ c = '0' := by simpa using hc
    rcases hcc with rfl | rfl
    · exact Or.inl rfl
    · right
      decide
  · unfold intDecString at hc
    split at hc
    · rcases List.mem_append.mp hc with h | h
      · left
        simpa using h
      · exact Or.inr (natDecCharsAux_chars _ _ c h)
    · exact Or.inr (natDecCharsAux_chars _ _ c hc)

theorem containsSub_subset {s pat : List Char} (h : containsSub s pat = true) :
    ∀ c ∈ pat, c ∈ s := by
  intro c hc
  unfold containsSub at h
  rw [List.any_eq_true] at h
  obtain ⟨i, -, hi⟩ := h
  rw [beq_iff_eq] at hi
  rw [← hi] at hc
  exact List.mem_of_mem_drop (List.mem_of_mem_take hc)

theorem overBudgetFlag_data (q : Rat) :
    (overBudgetFlag q).data =
      "over_budget_by_".data ++ (formatDotZeroF q).data ++ "_percent".data := by
  simp [overBudgetFlag, String.data_append]

/-- No over-budget flag ever has `item_missing` as a substring: the flag has
no `s` character outside its fixed parts, and those have none either. -/
theorem overBudgetFlag_not_contains_item_missing (q : Rat) :
    strContains (overBudgetFlag q) "item_missing" = false := by
  by_contra h
  rw [Bool.not_eq_false] at h
  have hs : 's' ∈ (overBudgetFlag q).data :=
    containsSub_subset h 's' (by decide)
  rw [overBudgetFlag_data] at hs
  rcases List.mem_append.mp hs with hs | hs
  · rcases List.mem_append.mp hs with hs | hs
    · revert hs; decide
    · rcases formatDotZeroF_chars q 's' hs with h1 | h1
      · exact absurd h1 (by decide)
      · revert h1; decide
  · revert hs; decide

/-- No over-budget flag is the literal `item_missing`. -/
theorem overBudgetFlag_ne_item_missing (q : Rat) :
    overBudgetFlag q ≠ "item_missing" := by
  intro h
  have := overBudgetFlag_not_contains_item_missing q
  rw [h] at this
  revert this
  decide

/-- Every over-budget flag starts with the fixed `over_budget_by_`. -/
theorem overBudgetFlag_startswith (q : Rat) :
    pyStartswith (overBudgetFlag q) "over_budget_by_" = true := by
  rw [pyStartswith, overBudgetFlag_data, List.isPrefixOf_iff_prefix, List.append_assoc]
  exact List.prefix_append _ _

/-! ## Claim C6: budget default and (claimed) positivity -/

/-- A budget whose `max_total_cents` is present but zero. -/
def zeroBudget : Budget := { max_total_cents := some 0 }

/-- C6 counterexample: the derived effective max is not always positive —
with `max_total_cents = 0` it is 0. Nothing in the model (pydantic accepts
any `int` here) excludes this value. -/
theorem budget_effective_max_zero_counterexample :
    Budget.effective_max_total_cents zeroBudget = 0 ∧
    ¬ (0 < Budget.effective_max_total_cents zeroBudget) := by
  constructor
  · rfl
  · decide

/-- C6 (amended): `effective_max_total_cents` is `max_total_cents` when
present and 100000 when absent; it is positive whenever `max_total_cents`
is absent or itself positive (positivity is not enforced for a present
non-positive value). -/
theorem budget_effective_max_spec (b : Budget) :
    (b.max_total_cents = none → b.effective_max_total_cents = 100000) ∧
    (∀ m, b.max_total_cents = some m → b.effective_max_total_cents = m) ∧
    ((b.max_total_cents = none ∨ ∃ m, b.max_total_cents = some m ∧ 0 < m) →
      0 < b.effective_max_total_cents) := by
  refine ⟨?_, ?_, ?_⟩
  · intro h
    simp [Budget.effective_max_total_cents, h]
  · intro m h
    simp [Budget.effective_max_total_cents, h]
  · intro h
    rcases h with h | ⟨m, h, hm⟩
    · simp [Budget.effective_max_total_cents, h]
    · simpa [Budget.effective_max_total_cents, h] using hm

theorem budget_effective_max_spec_witness :
    Budget.effective_max_total_cents { max_total_cents := none } = 100000 ∧
    0 < Budget.effective_max_total_cents { max_total_cents := some 25 } :=
  ⟨(budget_effective_max_spec { max_total_cents := none }).1 rfl,
   (budget_effective_max_spec { max_total_cents := some 25 }).2.2 (Or.inr ⟨25, rfl, by decide⟩)⟩

/-! ## Claim C5: over-budget flag format -/

theorem roundHalfEven_intCast (n : Int) : roundHalfEven ((n : Int) : Rat) = n := by
  simp [roundHalfEven]

theorem formatDotZeroF_intCast (n : Int) :
    formatDotZeroF ((n : Int) : Rat) = intDecString n := by
  have hd : formatDotZeroF ((n : Int) : Rat) =
      if ((n : Int) : Rat) < 0 ∧ roundHalfEven ((n : Int) : Rat) = 0 then "-0"
      else intDecString (roundHalfEven ((n : Int) : Rat)) := rfl
  rw [hd, roundHalfEven_intCast]
  split
  · rename_i h
    obtain ⟨h1, h2⟩ := h
    rw [h2] at h1
    norm_num at h1
  · rfl

theorem countFlags_no_over (plan : ShoppingPlan) (cart : CartJson) :
    (countFlags plan cart).filter (fun f => pyStartswith f "over_budget_by_") = [] := by
  unfold countFlags
  split
  · split <;> decide
  · rfl

/-- One-line shopping item reused by the concrete validator examples. -/
def demoItem : ShoppingItem := { id := "item-1", description := "usb hub" }

/-- Plan with `max_total_cents = 10000` (the claim's concrete instance). -/
def plan10k : ShoppingPlan :=
  { plan_id := "plan-10k", items := [demoItem], budget := { max_total_cents := some 10000 } }

/-- One-item cart totalling 15000 cents. -/
def cart15k : CartJson :=
  { plan_id := "plan-10k", merchant_origin := "https://joy-buy-test.lovable.app",
    checkout_url := "https://joy-buy-test.lovable.app/cart",
    items := [{ title := "Hub", url := "https://joy-buy-test.lovable.app/cart",
                price_cents := 15000 }],
    totals := { subtotal_cents := 15000, total_cents := 15000 } }

/-- C5 (amended): whenever the effective max total is nonzero, an
over-budget cart receives exactly one over-budget flag,
`over_budget_by_<p>_percent` with `p` the half-even rounding of
`(total - max) / max * 100`; a within-budget cart receives none; and the
claim's concrete instance (max 10000, total 15000) yields exactly
`over_budget_by_50_percent`. (When the effective max is 0 and the total
exceeds it, the division raises `ZeroDivisionError` instead — see the
counterexample.) -/
theorem over_budget_flag_spec (plan : ShoppingPlan) (cart : CartJson)
    (hmax : plan.budget.effective_max_total_cents ≠ 0) :
    (cart.totals.total_cents > plan.budget.effective_max_total_cents →
      quickFlags plan cart = Except.ok
        (overBudgetFlag
            (overPercentQ cart.totals.total_cents plan.budget.effective_max_total_cents)
          :: countFlags plan cart) ∧
      (overBudgetFlag
            (overPercentQ cart.totals.total_cents plan.budget.effective_max_total_cents)
          :: countFlags plan cart).filter (fun f => pyStartswith f "over_budget_by_") =
        [overBudgetFlag
          (overPercentQ cart.totals.total_cents plan.budget.effective_max_total_cents)]) ∧
    (cart.totals.total_cents ≤ plan.budget.effective_max_total_cents →
      quickFlags plan cart = Except.ok (countFlags plan cart) ∧
      (countFlags plan cart).filter (fun f => pyStartswith f "over_budget_by_") = []) ∧
    quickFlags plan10k cart15k = Except.ok ["over_budget_by_50_percent"] := by
  refine ⟨?_, ?_, ?_⟩
  · intro hover
    constructor
    · unfold quickFlags
      rw [if_pos hover, if_neg hmax]
    · rw [List.filter_cons_of_pos (by simpa using overBudgetFlag_startswith _)]
      rw [countFlags_no_over]
  · intro hle
    constructor
    · unfold quickFlags
      rw [if_neg (by omega)]
    · exact countFlags_no_over plan cart
  · have h1 : quickFlags plan10k cart15k =
        Except.ok (overBudgetFlag (overPercentQ 15000 10000) :: countFlags plan10k cart15k) := by
      unfold quickFlags
      norm_num [plan10k, cart15k, Budget.effective_max_total_cents]
    rw [h1]
    have h2 : overPercentQ 15000 10000 = ((50 : Int) : Rat) := by
      norm_num [overPercentQ]
    rw [h2]
    have h3 : overBudgetFlag ((50 : Int) : Rat) = "over_budget_by_50_percent" := by
      rw [overBudgetFlag, formatDotZeroF_intCast]
      decide
    rw [h3]
    have h4 : countFlags plan10k cart15k = [] := rfl
    rw [h4]

theorem over_budget_flag_spec_witness :
    quickFlags plan10k cart15k = Except.ok ["over_budget_by_50_percent"] :=
  (over_budget_flag_spec plan10k cart15k (by decide)).2.2

/-- Plan whose effective max total is 0 (present but zero budget). -/
def planZeroBudget : ShoppingPlan :=
  { plan_id := "plan-zero", items := [demoItem], budget := zeroBudget }

/-- One-item cart totalling 1 cent. -/
def cartOverZero : CartJson :=
  { plan_id := "plan-zero", merchant_origin := "https://joy-buy-test.lovable.app",
    checkout_url := "https://joy-buy-test.lovable.app/cart",
    items := [{ title := "Hub", url := "https://joy-buy-test.lovable.app/cart",
                price_cents := 1 }],
    totals := { subtotal_cents := 1, total_cents := 1 } }

/-- C5 counterexample: with effective max 0 and total 1 (total > max) the
validator raises `ZeroDivisionError` on the percentage division instead of
adding an over-budget flag. -/
theorem over_budget_flag_zero_counterexample :
    cartOverZero.totals.total_cents > planZeroBudget.budget.effective_max_total_cents ∧
    quickFlags planZeroBudget cartOverZero = Except.error "ZeroDivisionError" := by
  constructor
  · decide
  · rfl

/-! ## Claim C3: blocklist short-circuit -/

theorem quickFlags_ok (plan : ShoppingPlan) (cart : CartJson)
    (hsafe : ¬ (cart.totals.total_cents > plan.budget.effective_max_total_cents ∧
                plan.budget.effective_max_total_cents = 0)) :
    quickFlags plan cart = Except.ok
      ((if cart.totals.total_cents > plan.budget.effective_max_total_cents then
          [overBudgetFlag
            (overPercentQ cart.totals.total_cents plan.budget.effective_max_total_cents)]
        else []) ++ countFlags plan cart) := by
  have hq : quickFlags plan cart =
      if cart.totals.total_cents > plan.budget.effective_max_total_cents then
        if plan.budget.effective_max_total_cents = 0 then Except.error "ZeroDivisionError"
        else Except.ok
          (overBudgetFlag
              (overPercentQ cart.totals.total_cents plan.budget.effective_max_total_cents)
            :: countFlags plan cart)
      else Except.ok (countFlags plan cart) := rfl
  rw [hq]
  by_cases h : cart.totals.total_cents > plan.budget.effective_max_total_cents
  · rw [if_pos h, if_neg (fun hz => hsafe ⟨h, hz⟩), if_pos h]
    rfl
  · rw [if_neg h, if_neg h]
    rfl

/-- C3 (amended): whenever the over-budget computation does not divide by a
zero effective max, a cart whose scheme-stripped merchant domain is in the
plan's blocklist is rejected with flags exactly `["merchant_blocked"]`,
regardless of any budget or item-count flags accumulated before the check.
(With effective max 0 and an over-budget total, `quick_validate` instead
raises `ZeroDivisionError` before reaching the blocklist check — see the
counterexample.) -/
theorem merchant_blocked_rejects (plan : ShoppingPlan) (cart : CartJson)
    (hsafe : ¬ (cart.totals.total_cents > plan.budget.effective_max_total_cents ∧
                plan.budget.effective_max_total_cents = 0))
    (hblock : merchantDomain cart ∈ plan.merchants.blocklist) :
    quickValidate plan cart = Except.ok
      { decision := Decision.REJECT, flags := ["merchant_blocked"],
        reasoning := some ("Merchant " ++ merchantDomain cart ++ " is in blocklist") } := by
  unfold quickValidate
  rw [quickFlags_ok plan cart hsafe]
  simp only [bind, Except.bind]
  unfold validateWithFlags
  rw [if_pos hblock]
  rfl

/-- Plan with `blocked.com` blocklisted and a 10000-cent budget. -/
def planBlocklist : ShoppingPlan :=
  { plan_id := "plan-bl", items := [demoItem],
    budget := { max_total_cents := some 10000 },
    merchants := { blocklist := ["blocked.com"] } }

/-- Cart at the blocked merchant that is also over budget and missing its
item, so budget and count flags would otherwise fire. -/
def cartBlocked : CartJson :=
  { plan_id := "plan-bl", merchant_origin := "https://blocked.com",
    checkout_url := "https://blocked.com/cart", items := [],
    totals := { subtotal_cents := 20000, total_cents := 20000 } }

theorem merchant_blocked_rejects_witness :
    quickValidate planBlocklist cartBlocked = Except.ok
      { decision := Decision.REJECT, flags := ["merchant_blocked"],
        reasoning := some ("Merchant " ++ merchantDomain cartBlocked ++ " is in blocklist") } :=
  merchant_blocked_rejects planBlocklist cartBlocked (by decide) (by decide)

/-- Blocklisted merchant together with a zero effective max budget. -/
def planBlockedZero : ShoppingPlan :=
  { plan_id := "plan-bz", items := [demoItem], budget := zeroBudget,
    merchants := { blocklist := ["blocked.com"] } }

/-- Cart at the blocked merchant totalling 1 cent. -/
def cartBlockedZero : CartJson :=
  { plan_id := "plan-bz", merchant_origin := "https://blocked.com",
    checkout_url := "https://blocked.com/cart",
    items := [{ title := "Hub", url := "https://blocked.com/cart", price_cents := 1 }],
    totals := { subtotal_cents := 1, total_cents := 1 } }

/-- C3 counterexample: the blocklist does not short-circuit the budget
computation — with effective max 0 and total 1, `quick_validate` raises
`ZeroDivisionError` even though the merchant is blocklisted, so it does not
return the claimed REJECT result. -/
theorem merchant_blocked_zero_counterexample :
    merchantDomain cartBlockedZero ∈ planBlockedZero.merchants.blocklist ∧
    quickValidate planBlockedZero cartBlockedZero = Except.error "ZeroDivisionError" := by
  constructor
  · decide
  · rfl

/-! ## Claim C4: decision rule for unblocked merchants -/

/-- The flag list `quick_validate` accumulates when no division error
occurs (over-budget flag first, then the item-count flag). -/
def accFlags (plan : ShoppingPlan) (cart : CartJson) : List String :=
  (if cart.totals.total_cents > plan.budget.effective_max_total_cents then
    [overBudgetFlag
      (overPercentQ cart.totals.total_cents plan.budget.effective_max_total_cents)]
  else []) ++ countFlags plan cart

theorem accFlags_shape (plan : ShoppingPlan) (cart : CartJson) :
    ∀ f ∈ accFlags plan cart,
      (∃ q, f = overBudgetFlag q) ∨ f = "item_missing" ∨ f = "unexpected_item" := by
  intro f hf
  rcases List.mem_append.mp hf with h | h
  · split at h
    · simp at h
      exact Or.inl ⟨_, h⟩
    · simp at h
  · unfold countFlags at h
    split at h
    · split at h <;> simp at h <;> simp [h]
    · simp at h

/-- On the flags `quick_validate` can actually accumulate, the code's
substring test against the critical flags agrees with "contains
`over_budget_by_50_percent`, or is the literal `item_missing`". -/
theorem hasCritical_iff_claim (plan : ShoppingPlan) (cart : CartJson) :
    hasCritical (accFlags plan cart) = true ↔
      ∃ f ∈ accFlags plan cart,
        strContains f "over_budget_by_50_percent" = true ∨ f = "item_missing" := by
  unfold hasCritical criticalFlags
  rw [List.any_eq_true]
  constructor
  · rintro ⟨f, hf, hcrit⟩
    refine ⟨f, hf, ?_⟩
    simp only [List.any_cons, List.any_nil, Bool.or_false, Bool.or_eq_true] at hcrit
    rcases hcrit with h | h
    · exact Or.inl h
    · rcases accFlags_shape plan cart f hf with ⟨q, rfl⟩ | rfl | rfl
      · rw [overBudgetFlag_not_contains_item_missing q] at h
        cases h
      · exact Or.inr rfl
      · revert h
        decide
  · rintro ⟨f, hf, hcl⟩
    refine ⟨f, hf, ?_⟩
    simp only [List.any_cons, List.any_nil, Bool.or_false, Bool.or_eq_true]
    rcases hcl with h | rfl
    · exact Or.inl h
    · right
      decide

/-- Plan with max 10000 whose cart is 500% over budget. -/
def cart500pct : CartJson :=
  { plan_id := "plan-10k", merchant_origin := "https://joy-buy-test.lovable.app",
    checkout_url := "https://joy-buy-test.lovable.app/cart",
    items := [{ title := "Hub", url := "https://joy-buy-test.lovable.app/cart",
                price_cents := 60000 }],
    totals := { subtotal_cents := 60000, total_cents := 60000 } }

/-- C4: for an unblocked merchant (and no zero-budget division error): no
accumulated flags — total within effective budget and item counts equal —
gives ALLOW with empty flags; otherwise the decision is REJECT exactly when
some accumulated flag contains `over_budget_by_50_percent` or is the
literal `item_missing`, and ALLOW_WITH_FLAGS in every other flagged case.
Concretely, a cart 500% over budget (flag `over_budget_by_500_percent`) is
not rejected. -/
theorem quick_validate_decision_rule (plan : ShoppingPlan) (cart : CartJson)
    (hsafe : ¬ (cart.totals.total_cents > plan.budget.effective_max_total_cents ∧
                plan.budget.effective_max_total_cents = 0))
    (hnb : merchantDomain cart ∉ plan.merchants.blocklist) :
    (accFlags plan cart = [] ↔
      (cart.totals.total_cents ≤ plan.budget.effective_max_total_cents ∧
        cart.items.length = plan.items.length)) ∧
    (accFlags plan cart = [] →
      quickValidate plan cart = Except.ok
        { decision := Decision.ALLOW, flags := [],
          reasoning := some "Cart matches plan within constraints" }) ∧
    (accFlags plan cart ≠ [] →
      ((∃ f ∈ accFlags plan cart,
          strContains f "over_budget_by_50_percent" = true ∨ f = "item_missing") →
        quickValidate plan cart = Except.ok
          { decision := Decision.REJECT, flags := accFlags plan cart,
            reasoning := some "Critical validation issues found" }) ∧
      (¬ (∃ f ∈ accFlags plan cart,
          strContains f "over_budget_by_50_percent" = true ∨ f = "item_missing") →
        quickValidate plan cart = Except.ok
          { decision := Decision.ALLOW_WITH_FLAGS, flags := accFlags plan cart,
            reasoning := some "Minor issues found but acceptable for approval" })) ∧
    quickValidate plan10k cart500pct = Except.ok
      { decision := Decision.ALLOW_WITH_FLAGS, flags := ["over_budget_by_500_percent"],
        reasoning := some "Minor issues found but acceptable for approval" } := by
  have hbody : quickValidate plan cart =
      Except.ok (validateWithFlags plan cart (accFlags plan cart)) := by
    unfold quickValidate
    rw [quickFlags_ok plan cart hsafe]
    rfl
  refine ⟨?_, ?_, ?_, ?_⟩
  · constructor
    · intro h
      unfold accFlags countFlags at h
      by_cases hov : cart.totals.total_cents > plan.budget.effective_max_total_cents
      · rw [if_pos hov] at h
        simp at h
      · rw [if_neg hov] at h
        by_cases hc : cart.items.length = plan.items.length
        · exact ⟨by omega, hc⟩
        · rw [if_pos hc] at h
          rw [List.nil_append] at h
          split at h <;> simp at h
    · rintro ⟨h1, h2⟩
      unfold accFlags countFlags
      rw [if_neg (by omega), if_neg (fun hn => hn h2)]
      rfl
  · intro h0
    rw [hbody]
    unfold validateWithFlags
    rw [if_neg hnb, if_pos h0]
  · intro hne
    constructor
    · intro hcl
      rw [hbody]
      unfold validateWithFlags
      rw [if_neg hnb, if_neg hne, if_pos ((hasCritical_iff_claim plan cart).mpr hcl)]
    · intro hcl
      rw [hbody]
      unfold validateWithFlags
      rw [if_neg hnb, if_neg hne,
        if_neg (fun hc => hcl ((hasCritical_iff_claim plan cart).mp hc))]
  · have h1 : quickFlags plan10k cart500pct =
        Except.ok (overBudgetFlag (overPercentQ 60000 10000) :: countFlags plan10k cart500pct) := by
      unfold quickFlags
      norm_num [plan10k, cart500pct, Budget.effective_max_total_cents]
    have h2 : overPercentQ 60000 10000 = ((500 : Int) : Rat) := by
      norm_num [overPercentQ]
    have h3 : overBudgetFlag ((500 : Int) : Rat) = "over_budget_by_500_percent" := by
      rw [overBudgetFlag, formatDotZeroF_intCast]
      decide
    have h4 : countFlags plan10k cart500pct = [] := rfl
    unfold quickValidate
    rw [h1, h2, h3, h4]
    simp only [bind, Except.bind]
    unfold validateWithFlags
    rw [if_neg (by decide), if_neg (by decide), if_neg (by decide)]
    rfl

/-- Clean one-item cart within the 10000-cent budget. -/
def cartClean : CartJson :=
  { plan_id := "plan-10k", merchant_origin := "https://joy-buy-test.lovable.app",
    checkout_url := "https://joy-buy-test.lovable.app/cart",
    items := [{ title := "Hub", url := "https://joy-buy-test.lovable.app/cart",
                price_cents := 9000 }],
    totals := { subtotal_cents := 9000, total_cents := 9000 } }

theorem quick_validate_decision_rule_witness :
    quickValidate plan10k cartClean = Except.ok
      { decision := Decision.ALLOW, flags := [],
        reasoning := some "Cart matches plan within constraints" } :=
  (quick_validate_decision_rule plan10k cartClean (by decide) (by decide)).2.1 (by decide)

/-- C4 counterexample: for an unblocked merchant with zero effective max
and a positive total, `quick_validate` raises `ZeroDivisionError` instead
of returning any of the three decisions the claim prescribes. -/
theorem quick_validate_zero_counterexample :
    merchantDomain cartOverZero ∉ planZeroBudget.merchants.blocklist ∧
    quickValidate planZeroBudget cartOverZero = Except.error "ZeroDivisionError" := by
  constructor
  · decide
  · rfl

/-! ## Untrusted JSON values from the LLM boundary -/

/-- A decoded JSON value, as returned by `json.loads` on an LLM response. -/
inductive Jv
  | null
  | bool (b : Bool)
  | num (n : Int)
  | str (s : String)
  | arr (xs : List Jv)
  | obj (kvs : List (String × Jv))

/-- Python truthiness of a JSON value. -/
def jvTruthy : Jv → Bool
  | .null => false
  | .bool b => b
  | .num n => n != 0
  | .str s => s != ""
  | .arr xs => !xs.isEmpty
  | .obj kvs => !kvs.isEmpty

/-- First-match lookup in a JSON object (keys of a Python dict are unique). -/
def jvLookup (kvs : List (String × Jv)) (k : String) : Option Jv :=
  match kvs with
  | [] => none
  | (k2, v) :: rest => if k2 = k then some v else jvLookup rest k

/-- Python `x.get(k, default)`: `AttributeError` when the receiver is not a
dict. -/
def pyGet (v : Jv) (k : String) (default : Jv) : Except String Jv :=
  match v with
  | .obj kvs => .ok ((jvLookup kvs k).getD default)
  | _ => .error "AttributeError"

/-- Python `x or y`. -/
def pyOr (x y : Jv) : Jv := if jvTruthy x then x else y

/-- `isinstance(v, str)`-shaped test. -/
def isStr : Jv → Bool
  | .str _ => true
  | _ => false

/-- Test for an integer value. -/
def isNum : Jv → Bool
  | .num _ => true
  | _ => false

/-- Test for `None` or an integer value. -/
def isOptNum : Jv → Bool
  | .null => true
  | .num _ => true
  | _ => false

/-! ## Cart extractor (`JoyBuyShopper._extract_cart_state` /
`_normalize_cart_data`) -/

/-- `_normalize_cart_data`: a bare list becomes `\x7b"items": <list>\x7d`,
`None` becomes `\x7b\x7d`, any other non-dict becomes `\x7b\x7d`, and a
dict passes through. -/
def normalizeCartData : Jv → Jv
  | .arr xs => .obj [("items", .arr xs)]
  | .null => .obj []
  | .obj kvs => .obj kvs
  | _ => .obj []

/-- The raw `title` value of one item dict (`item_data.get("title",
"Unknown Item")`). -/
def titleRaw (kvs : List (String × Jv)) : Jv :=
  (jvLookup kvs "title").getD (.str "Unknown Item")

/-- The raw `price_cents` value (`item_data.get("price_cents", 0) or 0`). -/
def priceRaw (kvs : List (String × Jv)) : Jv :=
  pyOr ((jvLookup kvs "price_cents").getD (.num 0)) (.num 0)

/-- The raw `quantity` value (`item_data.get("quantity", 1) or 1`). -/
def qtyRaw (kvs : List (String × Jv)) : Jv :=
  pyOr ((jvLookup kvs "quantity").getD (.num 1)) (.num 1)

/-- One loop iteration of `_extract_cart_state` (lines 698–712): field
lookups with safe defaults on a dict item (a non-dict item raises
`AttributeError` on `.get`), then the pydantic `CartItem` validation
(`title` must be a string, `price_cents`/`quantity` integers). The random
`item_id` is modelled by the structure default. -/
def buildCartItem (planItems : List ShoppingItem) (currentUrl : String) (i : Nat)
    (itemData : Jv) : Except String CartItem :=
  match itemData with
  | .obj kvs =>
    match titleRaw kvs, priceRaw kvs, qtyRaw kvs with
    | .str t, .num p, .num q =>
      .ok { plan_item_id := (planItems.get? i).map (fun it => it.id),
            title := t, url := currentUrl, price_cents := p, quantity := q }
    | _, _, _ => .error "ValidationError"
  | _ => .error "AttributeError"

/-- The item loop of `_extract_cart_state`, positional linkage included. -/
def buildCartItems (planItems : List ShoppingItem) (currentUrl : String) :
    Nat → List Jv → Except String (List CartItem)
  | _, [] => .ok []
  | i, d :: rest => do
    let it ← buildCartItem planItems currentUrl i d
    let more ← buildCartItems planItems currentUrl (i + 1) rest
    .ok (it :: more)

/-- Lines 715–720: the totals, with `or 0` defaults on subtotal and total
and nullable tax/shipping, then the pydantic `CartTotals` validation. -/
def buildCartTotals (cartData : Jv) : Except String CartTotals :=
  match cartData with
  | .obj kvs => do
    let sub ← match pyOr ((jvLookup kvs "subtotal_cents").getD .null) (.num 0) with
      | .num n => Except.ok n
      | _ => Except.error "ValidationError"
    let tax ← match (jvLookup kvs "tax_cents").getD .null with
      | .null => Except.ok (none : Option Int)
      | .num n => Except.ok (some n)
      | _ => Except.error "ValidationError"
    let ship ← match (jvLookup kvs "shipping_cents").getD .null with
      | .null => Except.ok (none : Option Int)
      | .num n => Except.ok (some n)
      | _ => Except.error "ValidationError"
    let tot ← match pyOr ((jvLookup kvs "total_cents").getD .null) (.num 0) with
      | .num n => Except.ok n
      | _ => Except.error "ValidationError"
    Except.ok { subtotal_cents := sub, tax_cents := tax, shipping_cents := ship,
                total_cents := tot }
  | _ => .error "AttributeError"

/-- The field list of a JSON object (`_normalize_cart_data` always yields
an object). -/
def objKvs : Jv → List (String × Jv)
  | .obj kvs => kvs
  | _ => []

theorem normalizeCartData_is_obj (raw : Jv) :
    normalizeCartData raw = .obj (objKvs (normalizeCartData raw)) := by
  cases raw <;> rfl

/-- The list inside a JSON array, `[]` for any non-list (the extractor's
"Cart items is not a list" fallback). -/
def arrOrEmpty : Jv → List Jv
  | .arr xs => xs
  | _ => []

/-- The `items` list the extractor iterates over: `cart_data.get("items",
[])` on the normalized value, with a non-list defaulting to `[]`. -/
def itemsListOf (raw : Jv) : List Jv :=
  arrOrEmpty ((jvLookup (objKvs (normalizeCartData raw)) "items").getD (.arr []))

/-- `_extract_cart_state` (data path): normalize the LLM value, build the
items and totals, assemble the `CartJson` (uuid/timestamps modelled as the
caller-supplied/default strings) and compute its fingerprint. -/
def extractCartState (raw : Jv) (plan : ShoppingPlan)
    (baseUrl currentUrl profilePath expiresAt : String) : Except String CartJson := do
  let itemsData ← pyGet (normalizeCartData raw) "items" (.arr [])
  let items ← buildCartItems plan.items currentUrl 0 (arrOrEmpty itemsData)
  let totals ← buildCartTotals (normalizeCartData raw)
  return (computeFingerprint
    { plan_id := plan.plan_id, merchant_origin := baseUrl, checkout_url := currentUrl,
      items := items, totals := totals, expires_at := expiresAt,
      browser_profile := some { user_data_dir := some profilePath } }).1

/-! ## Claim C2: cart-extraction robustness -/

/-- An item the extractor consumes without raising: a mapping whose
`title` lookup is a string and whose defaulted `price_cents`/`quantity`
are integers. -/
def wellShapedItem : Jv → Bool
  | .obj kvs => isStr (titleRaw kvs) && isNum (priceRaw kvs) && isNum (qtyRaw kvs)
  | _ => false

/-- Totals fields the extractor consumes without raising. -/
def wellShapedTotals (kvs : List (String × Jv)) : Bool :=
  isNum (pyOr ((jvLookup kvs "subtotal_cents").getD .null) (.num 0)) &&
  isOptNum ((jvLookup kvs "tax_cents").getD .null) &&
  isOptNum ((jvLookup kvs "shipping_cents").getD .null) &&
  isNum (pyOr ((jvLookup kvs "total_cents").getD .null) (.num 0))

/-- The string inside a `Jv.str`. -/
def strOf : Jv → String
  | .str s => s
  | _ => ""

/-- The integer inside a `Jv.num`. -/
def intOf : Jv → Int
  | .num n => n
  | _ => 0

/-- `none` for JSON null, the integer otherwise. -/
def optIntOf : Jv → Option Int
  | .num n => some n
  | _ => none

/-- Modelled from the spec: the item record the extractor is specified to
produce — `title` defaulting to "Unknown Item", `price_cents` to 0,
`quantity` to 1, the i-th item linked to the i-th plan item's id. -/
def specCartItem (planItems : List ShoppingItem) (url : String) (i : Nat) (v : Jv) : CartItem :=
  match v with
  | .obj kvs =>
    { plan_item_id := (planItems.get? i).map (fun it => it.id),
      title := strOf (titleRaw kvs), url := url,
      price_cents := intOf (priceRaw kvs), quantity := intOf (qtyRaw kvs) }
  | _ => { title := "", url := url, price_cents := 0 }

/-- Modelled from the spec: the extracted item sequence, in order, with
positional plan linkage. -/
def specItems (planItems : List ShoppingItem) (url : String) : Nat → List Jv → List CartItem
  | _, [] => []
  | i, v :: rest => specCartItem planItems url i v :: specItems planItems url (i + 1) rest

/-- Modelled from the spec: totals with numeric fields defaulting to 0 and
nullable tax/shipping. -/
def specTotals (raw : Jv) : CartTotals :=
  { subtotal_cents :=
      intOf (pyOr ((jvLookup (objKvs (normalizeCartData raw)) "subtotal_cents").getD .null) (.num 0)),
    tax_cents := optIntOf ((jvLookup (objKvs (normalizeCartData raw)) "tax_cents").getD .null),
    shipping_cents := optIntOf ((jvLookup (objKvs (normalizeCartData raw)) "shipping_cents").getD .null),
    total_cents :=
      intOf (pyOr ((jvLookup (objKvs (normalizeCartData raw)) "total_cents").getD .null) (.num 0)) }

/-- Modelled from the spec: the well-formed `CartJson` the extractor is
specified to yield. -/
def specCart (raw : Jv) (plan : ShoppingPlan)
    (baseUrl currentUrl profilePath expiresAt : String) : CartJson :=
  { plan_id := plan.plan_id, merchant_origin := baseUrl, checkout_url := currentUrl,
    items := specItems plan.items currentUrl 0 (itemsListOf raw),
    totals := specTotals raw, expires_at := expiresAt,
    browser_profile := some { user_data_dir := some profilePath } }

theorem isStr_shape {v : Jv} (h : isStr v = true) : ∃ s, v = .str s := by
  cases v <;> simp [isStr] at h ⊢

theorem isNum_shape {v : Jv} (h : isNum v = true) : ∃ n, v = .num n := by
  cases v <;> simp [isNum] at h ⊢

theorem isOptNum_shape {v : Jv} (h : isOptNum v = true) :
    v = .null ∨ ∃ n, v = .num n := by
  cases v <;> simp [isOptNum] at h ⊢

theorem buildCartItem_ok (planItems : List ShoppingItem) (url : String) (i : Nat)
    {v : Jv} (h : wellShapedItem v = true) :
    buildCartItem planItems url i v = .ok (specCartItem planItems url i v) := by
  cases v with
  | obj kvs =>
    rw [wellShapedItem] at h
    simp only [Bool.and_eq_true] at h
    obtain ⟨⟨ht, hp⟩, hq⟩ := h
    obtain ⟨t, ht⟩ := isStr_shape ht
    obtain ⟨p, hp⟩ := isNum_shape hp
    obtain ⟨q, hq⟩ := isNum_shape hq
    simp [buildCartItem, specCartItem, ht, hp, hq, strOf, intOf]
  | null => simp [wellShapedItem] at h
  | bool b => simp [wellShapedItem] at h
  | num n => simp [wellShapedItem] at h
  | str s => simp [wellShapedItem] at h
  | arr xs => simp [wellShapedItem] at h

theorem buildCartItems_ok (planItems : List ShoppingItem) (url : String)
    {l : List Jv} (h : ∀ v ∈ l, wellShapedItem v = true) :
    ∀ i, buildCartItems planItems url i l = .ok (specItems planItems url i l) := by
  induction l with
  | nil => intro i; rfl
  | cons v rest ih =>
    intro i
    rw [buildCartItems, buildCartItem_ok planItems url i (h v (by simp))]
    rw [specItems]
    simp only [bind, Except.bind]
    rw [ih (fun w hw => h w (by simp [hw])) (i + 1)]

theorem buildCartTotals_ok (raw : Jv)
    (h : wellShapedTotals (objKvs (normalizeCartData raw)) = true) :
    buildCartTotals (normalizeCartData raw) = .ok (specTotals raw) := by
  rw [normalizeCartData_is_obj raw]
  rw [wellShapedTotals] at h
  simp only [Bool.and_eq_true] at h
  obtain ⟨⟨⟨hs, hx⟩, hh⟩, ht⟩ := h
  obtain ⟨s, hs⟩ := isNum_shape hs
  obtain ⟨t, ht⟩ := isNum_shape ht
  rcases isOptNum_shape hx with hx | ⟨x, hx⟩ <;>
    rcases isOptNum_shape hh with hh | ⟨y, hh⟩ <;>
      simp [buildCartTotals, specTotals, hs, ht, hx, hh, intOf, optIntOf, bind, Except.bind]

theorem itemsListOf_eq (raw : Jv) :
    arrOrEmpty ((jvLookup (objKvs (normalizeCartData raw)) "items").getD (.arr [])) =
      itemsListOf raw := rfl

/-- C2 (amended): the extractor never raises for any top-level LLM value —
a bare list is normalized to `\x7b"items": <list>\x7d`, null and any other
non-mapping to `\x7b\x7d` — provided every element of the resulting items
list is itself a mapping with a string (or absent) title and integer (or
null/absent) numeric fields, and the totals fields are integers or
null/absent; it then yields exactly the well-formed cart with defaults
"Unknown Item"/0/1 and positional plan linkage. (An items element that is
not a mapping raises `AttributeError` — see the counterexample.) -/
theorem extract_cart_robustness (raw : Jv) (plan : ShoppingPlan)
    (baseUrl currentUrl profilePath expiresAt : String)
    (hitems : ∀ v ∈ itemsListOf raw, wellShapedItem v = true)
    (htot : wellShapedTotals (objKvs (normalizeCartData raw)) = true) :
    extractCartState raw plan baseUrl currentUrl profilePath expiresAt =
      Except.ok
        ((computeFingerprint (specCart raw plan baseUrl currentUrl profilePath expiresAt)).1) := by
  unfold extractCartState
  rw [show pyGet (normalizeCartData raw) "items" (.arr []) =
      Except.ok ((jvLookup (objKvs (normalizeCartData raw)) "items").getD (.arr [])) by
    cases raw <;> rfl]
  simp only [bind, Except.bind]
  rw [itemsListOf_eq raw]
  rw [buildCartItems_ok plan.items currentUrl hitems 0]
  simp only [bind, Except.bind]
  rw [buildCartTotals_ok raw htot]
  rfl

/-- C2 counterexample: an items list containing a non-mapping element (here
the bare list `["not a mapping"]` as the whole LLM response) raises
`AttributeError` on the item's `.get`, so cart building is not total. -/
theorem extract_cart_nonmapping_item_counterexample :
    extractCartState (.arr [.str "not a mapping"]) plan10k
      "https://joy-buy-test.lovable.app" "https://joy-buy-test.lovable.app/cart"
      "/tmp/profile" "2026-01-01T01:00:00" = Except.error "AttributeError" := rfl

/-- LLM response exercising every default: one item with a null price and
no title or quantity, and a totals mapping with only `total_cents`. -/
def rawDefaultsExample : Jv :=
  .obj [("items", .arr [.obj [("price_cents", .null)]]), ("total_cents", .num 5500)]

theorem extract_cart_robustness_witness :
    extractCartState rawDefaultsExample plan10k
      "https://joy-buy-test.lovable.app" "https://joy-buy-test.lovable.app/cart"
      "/tmp/profile" "2026-01-01T01:00:00" =
      Except.ok
        ((computeFingerprint (specCart rawDefaultsExample plan10k
          "https://joy-buy-test.lovable.app" "https://joy-buy-test.lovable.app/cart"
          "/tmp/profile" "2026-01-01T01:00:00")).1) :=
  extract_cart_robustness rawDefaultsExample plan10k
    "https://joy-buy-test.lovable.app" "https://joy-buy-test.lovable.app/cart"
    "/tmp/profile" "2026-01-01T01:00:00" (by decide) (by decide)

/-! ## Catalog products and the match phase
(`JoyBuyShopper._select_product_match`, `_add_item_to_cart`) -/

/-- A parsed catalog record (the dicts `_parse_products_from_lines`
emits). -/
structure Product where
  name : String
  description : String
  price : String
  category : String
deriving DecidableEq, Repr

/-- Python's reading of a value in `0 <= product_index < len(products)`:
an integer is itself, a bool is its integer value, anything else raises
`TypeError` at the comparison. -/
def asIndex : Jv → Except String Int
  | .num n => .ok n
  | .bool b => .ok (if b then 1 else 0)
  | _ => .error "TypeError"

/-- The observable outcome of `_add_item_to_cart`'s match phase: either no
match is reported (the plan item is skipped), or add-to-cart proceeds at
`index` under `name`, with `authoritative` recording whether the name was
overwritten with the catalog's own name. -/
inductive MatchPhase
  | noMatch
  | attemptAdd (index : Int) (name : Jv) (authoritative : Bool)

/-- `_select_product_match`: read `product_index` (default -1) and
`product_name` (default "") from the LLM result; when the index lies in
`[0, len(products))`, replace the name with the catalog's name at that
index. -/
def selectProductMatch (result : Jv) (products : List Product) :
    Except String (Int × Jv × Bool) := do
  let idxJ ← pyGet result "product_index" (.num (-1))
  let nameJ ← pyGet result "product_name" (.str "")
  let idx ← asIndex idxJ
  if 0 ≤ idx ∧ idx < (products.length : Int) then
    .ok (idx, .str (products.getD idx.toNat ⟨"", "", "", ""⟩).name, true)
  else
    .ok (idx, nameJ, false)

/-- The match phase of `_add_item_to_cart` (lines 204–227): a falsy
`found` returns without adding; otherwise the selection runs and the add
actions proceed with its index and name — also when the index is out of
range, where only the by-name click strategies remain. -/
def addItemMatchPhase (result : Jv) (products : List Product) :
    Except String MatchPhase := do
  let found ← pyGet result "found" (.bool false)
  if jvTruthy found = false then
    return MatchPhase.noMatch
  let sel ← selectProductMatch result products
  return MatchPhase.attemptAdd sel.1 sel.2.1 sel.2.2

/-- C7 (amended): with a readable result dict and an integer-valued index:
a falsy `found` reports no match without raising; a truthy `found` with the
index in `[0, len(catalog))` proceeds with the catalog's own name at that
index (authoritative substitution); a truthy `found` with the index out of
range proceeds found-by-name only — with the LLM-provided name, no
substitution — without raising, rather than reporting no match. -/
theorem catalog_match_index_guard (result : Jv) (products : List Product)
    (foundV idxV nameV : Jv) (idx : Int)
    (h1 : pyGet result "found" (.bool false) = .ok foundV)
    (h2 : pyGet result "product_index" (.num (-1)) = .ok idxV)
    (h3 : asIndex idxV = .ok idx)
    (h4 : pyGet result "product_name" (.str "") = .ok nameV) :
    (jvTruthy foundV = false →
      addItemMatchPhase result products = .ok MatchPhase.noMatch) ∧
    (jvTruthy foundV = true → 0 ≤ idx → idx < (products.length : Int) →
      addItemMatchPhase result products =
        .ok (MatchPhase.attemptAdd idx
          (.str (products.getD idx.toNat ⟨"", "", "", ""⟩).name) true)) ∧
    (jvTruthy foundV = true → ¬ (0 ≤ idx ∧ idx < (products.length : Int)) →
      addItemMatchPhase result products =
        .ok (MatchPhase.attemptAdd idx nameV false)) := by
  refine ⟨?_, ?_, ?_⟩
  · intro hfv
    unfold addItemMatchPhase
    rw [h1]
    simp only [bind, Except.bind]
    rw [if_pos hfv]
    rfl
  · intro hfv hge hlt
    unfold addItemMatchPhase
    rw [h1]
    simp only [bind, Except.bind]
    rw [if_neg (by simp [hfv])]
    unfold selectProductMatch
    rw [h2]
    simp only [bind, Except.bind]
    rw [h4]
    simp only [bind, Except.bind]
    rw [h3]
    simp only [bind, Except.bind]
    rw [if_pos ⟨hge, hlt⟩]
    rfl
  · intro hfv hout
    unfold addItemMatchPhase
    rw [h1]
    simp only [bind, Except.bind]
    rw [if_neg (by simp [hfv])]
    unfold selectProductMatch
    rw [h2]
    simp only [bind, Except.bind]
    rw [h4]
    simp only [bind, Except.bind]
    rw [h3]
    simp only [bind, Except.bind]
    rw [if_neg hout]
    rfl

/-- Single-product catalog for the matcher examples. -/
def oneProductCatalog : List Product := [⟨"Widget", "A widget", "$9.99", "Tools"⟩]

/-- LLM match result claiming `found` with index 5 against a one-product
catalog. -/
def outOfRangeResult : Jv :=
  .obj [("found", .bool true), ("product_index", .num 5), ("product_name", .str "Gadget")]

/-- C7 counterexample: with `found = true` and out-of-range index 5, the
matcher does not report "no match" — it proceeds by name with the
LLM-provided name and no authoritative substitution. -/
theorem catalog_match_out_of_range_counterexample :
    addItemMatchPhase outOfRangeResult oneProductCatalog =
      .ok (MatchPhase.attemptAdd 5 (.str "Gadget") false) ∧
    addItemMatchPhase outOfRangeResult oneProductCatalog ≠ .ok MatchPhase.noMatch := by
  constructor
  · rfl
  · intro h
    rw [show addItemMatchPhase outOfRangeResult oneProductCatalog =
        .ok (MatchPhase.attemptAdd 5 (.str "Gadget") false) from rfl] at h
    injection h with h2
    injection h2

/-- LLM match result with a valid index but a wrong name. -/
def inRangeResult : Jv :=
  .obj [("found", .bool true), ("product_index", .num 0), ("product_name", .str "wrong name")]

theorem catalog_match_index_guard_witness :
    addItemMatchPhase inRangeResult oneProductCatalog =
      .ok (MatchPhase.attemptAdd 0 (.str "Widget") true) :=
  (catalog_match_index_guard inRangeResult oneProductCatalog
    (.bool true) (.num 0) (.str "wrong name") 0 rfl rfl rfl rfl).2.1 rfl (by decide) (by decide)

/-! ## Claim C8: catalog parsing (`_parse_products_from_lines`) -/

/-- One iteration of the parse loop at index `i` (lines 180–199): a record
is emitted exactly when the stripped line is a price line, at least two
lines precede it, and the derived name is non-empty and not itself
price-like. -/
def parseStep (lines : List String) (i : Nat) : List Product :=
  if pyStartswith (pyStrip (lines.getD i "")) "$" = true then
    if 2 ≤ i then
      if pyStrip (lines.getD (i - 2) "") ≠ "" ∧
          pyStartswith (pyStrip (lines.getD (i - 2) "")) "$" = false then
        [{ name := pyStrip (lines.getD (i - 2) ""),
           description := pyStrip (lines.getD (i - 1) ""),
           price := pyStrip (lines.getD i ""),
           category := if 3 ≤ i then pyStrip (lines.getD (i - 3) "") else "" }]
      else []
    else []
  else []

/-- `_parse_products_from_lines`: the `while i < len(lines)` loop,
appending each emitted record in index order. -/
def parseProductsFromLines (lines : List String) : List Product :=
  (List.range lines.length).foldl (fun acc i => acc ++ parseStep lines i) []

/-- Modelled from the spec: index `i` anchors a record — its stripped line
is currency-prefixed, it has the required preceding window, and the line
two back (the name) is non-empty and not price-like. -/
def specAnchors (lines : List String) (i : Nat) : Bool :=
  pyStartswith (pyStrip (lines.getD i "")) "$" && decide (2 ≤ i) &&
    !(pyStrip (lines.getD (i - 2) "") == "") &&
    !(pyStartswith (pyStrip (lines.getD (i - 2) "")) "$")

/-- Modelled from the spec: the record anchored at price line `i` —
description is the line immediately before, name the line before that,
category the line before that (empty when absent). -/
def specPriceRecord (lines : List String) (i : Nat) : Product :=
  { name := pyStrip (lines.getD (i - 2) ""),
    description := pyStrip (lines.getD (i - 1) ""),
    price := pyStrip (lines.getD i ""),
    category := if 3 ≤ i then pyStrip (lines.getD (i - 3) "") else "" }

theorem parseStep_eq (lines : List String) (i : Nat) :
    parseStep lines i =
      if specAnchors lines i = true then [specPriceRecord lines i] else [] := by
  unfold parseStep specAnchors specPriceRecord
  set s0 := pyStrip (lines.getD i "") with hs0
  set s2 := pyStrip (lines.getD (i - 2) "") with hs2
  by_cases h1 : pyStartswith s0 "$" = true <;>
    by_cases h2 : 2 ≤ i <;>
      by_cases h3 : s2 = "" <;>
        by_cases h4 : pyStartswith s2 "$" = true <;>
          simp [h1, h2, h3, h4]

theorem foldl_append_eq_filter_map {α β : Type} (f : α → List β) (q : α → Bool) (r : α → β)
    (hf : ∀ a, f a = if q a = true then [r a] else []) :
    ∀ (l : List α) (acc : List β),
      l.foldl (fun acc a => acc ++ f a) acc = acc ++ (l.filter q).map r := by
  intro l
  induction l with
  | nil => intro acc; simp
  | cons a rest ih =>
    intro acc
    rw [List.foldl_cons, ih, hf a, List.filter_cons]
    by_cases hq : q a = true
    · rw [if_pos hq, if_pos hq]
      simp
    · rw [if_neg hq, if_neg hq]
      simp

/-- C8: the parser emits, in order of their anchoring price lines, exactly
one record per currency-prefixed price line with the required preceding
window (description the line before, name two back, category three back or
empty), dropping price lines too close to the start, those whose derived
name is empty or price-like, and all other lines. -/
theorem parse_products_characterization (lines : List String) :
    parseProductsFromLines lines =
      ((List.range lines.length).filter (specAnchors lines)).map (specPriceRecord lines) := by
  unfold parseProductsFromLines
  rw [foldl_append_eq_filter_map (parseStep lines) (specAnchors lines) (specPriceRecord lines)
    (parseStep_eq lines) (List.range lines.length) []]
  rfl

/-- Sanity instance of the parser on a five-line product card. -/
theorem parse_products_example :
    parseProductsFromLines ["TOOLS", "Widget", "A handy widget", " $9.99 ", "Add"] =
      [{ name := "Widget", description := "A handy widget", price := "$9.99",
         category := "TOOLS" }] := by
  decide

/-! ## Claim C9: plaintext payment data on stdout and in the log
(`PaytatoClient.decrypt_credentials`, `run_agent`) -/

/-- Python `str()` of a decoded scalar JSON value, as an f-string renders
it. (Collection rendering is abbreviated; no theorem uses it.) -/
def jvDisplay : Jv → String
  | .null => "None"
  | .bool b => if b then "True" else "False"
  | .num n => intDecString n
  | .str s => s
  | .arr _ => "[...]"
  | .obj _ => "\x7b...\x7d"

/-- `card_data.get(k1) or card_data.get(k2)` on the decrypted card dict. -/
def cardField (cardData : List (String × Jv)) (k1 k2 : String) : Jv :=
  pyOr ((jvLookup cardData k1).getD .null) ((jvLookup cardData k2).getD .null)

/-- Forty equals signs, the separator `decrypt_credentials` prints
(`"=" * 40`). -/
def eqBar : String := ⟨List.replicate 40 '='⟩

/-- The lines `decrypt_credentials` writes to standard output right after
decrypting (paytato.py lines 256–262), one string per `print` call. -/
def decryptPrintLines (cardData : List (String × Jv)) : List String :=
  ["\n" ++ eqBar,
   "DEBUG: DECRYPTED CARD DETAILS (FAKE/TEST)",
   "PAN:  " ++ jvDisplay (cardField cardData "pan" "cardNumber"),
   "CVV:  " ++ jvDisplay (cardField cardData "cvv" "securityCode"),
   "EXP:  " ++ jvDisplay (cardField cardData "exp_month" "expiryMonth") ++ "/" ++
     jvDisplay (cardField cardData "exp_year" "expiryYear"),
   "NAME: " ++ jvDisplay (cardField cardData "cardholder_name" "cardholderName"),
   eqBar ++ "\n"]

/-- The log line `run_agent` emits after approval (main.py line 228). -/
def receivedPaymentLogLine (pm : PaymentMethod) : String :=
  "Agent successfully received payment data for: " ++ pm.cardholder_name

/-- Every cart the extractor produces is persisted before any payment step
and carries no payment method. -/
theorem extractCartState_payment_method_none (raw : Jv) (plan : ShoppingPlan)
    (baseUrl currentUrl profilePath expiresAt : String) (c : CartJson)
    (h : extractCartState raw plan baseUrl currentUrl profilePath expiresAt = .ok c) :
    c.payment_method = none := by
  unfold extractCartState at h
  cases hg : pyGet (normalizeCartData raw) "items" (.arr []) with
  | error e =>
    rw [hg] at h
    simp [bind, Except.bind] at h
  | ok v =>
    rw [hg] at h
    simp only [bind, Except.bind] at h
    cases hi : buildCartItems plan.items currentUrl 0 (arrOrEmpty v) with
    | error e =>
      rw [hi] at h
      simp [bind, Except.bind] at h
    | ok items =>
      rw [hi] at h
      simp only [bind, Except.bind] at h
      cases ht : buildCartTotals (normalizeCartData raw) with
      | error e =>
        rw [ht] at h
        simp [bind, Except.bind] at h
      | ok totals =>
        rw [ht] at h
        simp only [bind, Except.bind] at h
        have hc := Except.ok.inj h
        rw [← hc]
        rfl

/-- The decrypted test card of the failing run. -/
def fakeCardData : List (String × Jv) :=
  [("pan", .str "4111111111111111"), ("cvv", .str "123"),
   ("exp_month", .str "08"), ("exp_year", .str "2027"),
   ("cardholder_name", .str "ALICE EXAMPLE")]

/-- C9 (code bug evidence): at the failing input, `decrypt_credentials`
writes the plaintext PAN, CVV, expiry and cardholder name to standard
output, and `run_agent` writes the cardholder name to the log — the claim
that no plaintext card data is ever written to stdout or the log is
violated by the code. -/
theorem decrypt_credentials_prints_plaintext :
    (∃ line ∈ decryptPrintLines fakeCardData, strContains line "4111111111111111" = true) ∧
    (∃ line ∈ decryptPrintLines fakeCardData, strContains line "123" = true) ∧
    (∃ line ∈ decryptPrintLines fakeCardData, strContains line "08/2027" = true) ∧
    (∃ line ∈ decryptPrintLines fakeCardData, strContains line "ALICE EXAMPLE" = true) ∧
    receivedPaymentLogLine
        { pan := "4111111111111111", exp_month := "08", exp_year := "2027", cvv := "123",
          cardholder_name := "ALICE EXAMPLE" } =
      "Agent successfully received payment data for: ALICE EXAMPLE" := by
  refine ⟨?_, ?_, ?_, ?_, rfl⟩ <;> decide
